import Mathlib

/-!
Verification of the ChatRelayService (`src/backend/chatbot_api.py`).

The service is a single Flask module with two endpoints.  We shallowly embed
the request-handling code: JSON values decoded from the request body become an
inductive `JsonValue`; the Python operations the handler performs on them
(truthiness tests, `in`, subscripting, `dict.get`, f-string interpolation via
`str()`) become Lean functions that return `Except String _` where the Python
operation can raise, the raised exception modelled by its `str(e)` description.
The handler `chat` itself is a total Lean function: the source wraps its whole
body in `try/except Exception`, so every raised error is converted into a
response and nothing escapes.

JSON numbers are modelled as integers (`Int`); none of the verified
properties depend on float formatting.
-/

/-- A JSON value as decoded by Flask's `request.get_json()` (Python's `json`
module): objects become dicts (modelled as association lists with distinct
keys, in insertion order), arrays become lists, and scalars map to `None`,
`bool`, numbers and `str`. -/
inductive JsonValue where
  | null : JsonValue
  | bool : Bool → JsonValue
  | num : Int → JsonValue
  | str : String → JsonValue
  | arr : List JsonValue → JsonValue
  | obj : List (String × JsonValue) → JsonValue

/-- Python truthiness (`bool(x)`) on a decoded JSON value: `None`, `False`,
`0`, `""`, `[]` and `{}` are falsy, everything else is truthy. -/
def truthy : JsonValue → Bool
  | .null => false
  | .bool b => b
  | .num n => n != 0
  | .str s => s != ""
  | .arr xs => !xs.isEmpty
  | .obj fields => !fields.isEmpty

/-- Key lookup in a decoded JSON object (a Python dict has unique keys, so
first match is the match). -/
def objLookup (fields : List (String × JsonValue)) (key : String) : Option JsonValue :=
  match fields with
  | [] => none
  | (k, v) :: rest => if k = key then some v else objLookup rest key

/-- The apostrophe character, used by Python's `repr` of strings. -/
def squote : Char := Char.ofNat 39

/-- The double-quote character. -/
def dquote : Char := Char.ofNat 34

/-- The backslash character. -/
def bslash : Char := Char.ofNat 92

/-- Python's `repr` escaping of one character of a string literal, given the
chosen surrounding quote character. -/
def pyReprChar (q c : Char) : String :=
  if c = bslash then String.mk [bslash, bslash]
  else if c = q then String.mk [bslash, q]
  else if c = Char.ofNat 10 then String.mk [bslash, Char.ofNat 110]
  else if c = Char.ofNat 13 then String.mk [bslash, Char.ofNat 114]
  else if c = Char.ofNat 9 then String.mk [bslash, Char.ofNat 116]
  else String.mk [c]

/-- Python's `repr` of a string: surrounded by single quotes, switching to
double quotes when the string contains a single quote but no double quote. -/
def pyReprString (s : String) : String :=
  let q := if s.contains squote && !(s.contains dquote) then dquote else squote
  String.mk [q] ++ String.join (s.data.map (pyReprChar q)) ++ String.mk [q]

mutual

/-- Python's `repr` of a decoded JSON value. -/
def pyRepr : JsonValue → String
  | .null => "None"
  | .bool true => "True"
  | .bool false => "False"
  | .num n => toString n
  | .str s => pyReprString s
  | .arr xs => "[" ++ pyReprElems xs ++ "]"
  | .obj fields => "\x7b" ++ pyReprFields fields ++ "\x7d"

/-- Comma-separated `repr`s of the elements of a Python list. -/
def pyReprElems : List JsonValue → String
  | [] => ""
  | [x] => pyRepr x
  | x :: xs => pyRepr x ++ ", " ++ pyReprElems xs

/-- Comma-separated `key: value` entries of a Python dict's `repr`. -/
def pyReprFields : List (String × JsonValue) → String
  | [] => ""
  | [(k, v)] => pyReprString k ++ ": " ++ pyRepr v
  | (k, v) :: rest => pyReprString k ++ ": " ++ pyRepr v ++ ", " ++ pyReprFields rest

end

/-- Python's `str()` of a decoded JSON value, as interpolated by an f-string:
a string is itself, everything else renders as its `repr`. -/
def pyStr : JsonValue → String
  | .str s => s
  | v => pyRepr v

/-- The Python type name of a decoded JSON value, as it appears in
`TypeError` messages. -/
def pyTypeName : JsonValue → String
  | .null => "NoneType"
  | .bool _ => "bool"
  | .num _ => "int"
  | .str _ => "str"
  | .arr _ => "list"
  | .obj _ => "dict"

/-- Whether the first list is a prefix of the second. -/
def charsIsPrefix : List Char → List Char → Bool
  | [], _ => true
  | _ :: _, [] => false
  | a :: as, b :: bs => a = b && charsIsPrefix as bs

/-- Whether the first list occurs contiguously inside the second. -/
def charsIsInfix (needle : List Char) : List Char → Bool
  | [] => charsIsPrefix needle []
  | hay@(_ :: rest) => charsIsPrefix needle hay || charsIsInfix needle rest

/-- Python's `key in x` for a string key: key membership for a dict,
element membership for a list, substring test for a string; raises
`TypeError` on non-iterable values. -/
def pyContains (v : JsonValue) (key : String) : Except String Bool :=
  match v with
  | .obj fields => .ok (objLookup fields key).isSome
  | .arr xs => .ok (xs.any fun x =>
      match x with
      | .str s => s = key
      | _ => false)
  | .str s => .ok (charsIsInfix key.data s.data)
  | v => .error ("argument of type " ++ pyReprString (pyTypeName v) ++ " is not iterable")

/-- Python's `x[key]` for a string key: dict lookup (raising `KeyError`
when absent); lists and strings only accept integer indices; scalars are
not subscriptable. -/
def pyGetItem (v : JsonValue) (key : String) : Except String JsonValue :=
  match v with
  | .obj fields =>
    match objLookup fields key with
    | some x => .ok x
    | none => .error (pyReprString key)
  | .arr _ => .error "list indices must be integers or slices, not str"
  | .str _ => .error ("string indices must be integers, not " ++ pyReprString "str")
  | v => .error (pyReprString (pyTypeName v) ++ " object is not subscriptable")

/-- Python's `x.get(key, default)`: defined on dicts only; other values have
no `get` attribute and raise `AttributeError`. -/
def pyDictGet (v : JsonValue) (key : String) (dflt : JsonValue) : Except String JsonValue :=
  match v with
  | .obj fields => .ok ((objLookup fields key).getD dflt)
  | v => .error (pyReprString (pyTypeName v) ++
      " object has no attribute " ++ pyReprString "get")

/-- The module-level constant `SYSTEM_PROMPT` of `chatbot_api.py`,
transcribed byte for byte (the triple-quoted literal begins and ends with a
newline). -/
def SYSTEM_PROMPT : String :=
  "\nYou are RampageAI, an advanced AI assistant specializing in finance. Always provide concise and accurate answers unless the user specifically requests detailed explanations. Communicate in clear, simple language, breaking down financial concepts so that users of any expertise level can understand.\n\nYour guidance must:\n- Be based on sound financial principles, current best practices, and reference credible sources when possible.\n- Stay objective and impartial—never promote specific products, services, or brands.\n- Fully respect user privacy and data security standards. Never request sensitive information unless essential and permitted.\n- Avoid personalized investment or legal advice; instead, advise users to consult certified professionals for such needs.\n- Support core financial tasks like budgeting, reporting, forecasting, risk assessment, cash flow analysis, and providing actionable financial insights.\n- Ask clarifying questions if user input is ambiguous, and refine your answers based on user feedback or follow-up questions.\n- Remain up-to-date with market trends and compliance requirements as relevant to queries.\n\nYour main goal is to help users make confident, informed financial decisions with efficient and trustworthy support.\n"

/-- The context block of the prompt (`context_info` in the source):
starts empty, and when `user_context` is truthy appends one labelled line per
recognized key present, in source order.  Each `in` test and subscript may
raise when `user_context` is not a dict; a raise propagates to the handler's
`except` block. -/
def buildContextInfo (userContext : JsonValue) : Except String String := do
  let mut contextInfo := ""
  if truthy userContext then
    if (← pyContains userContext "transactions") then
      let v ← pyGetItem userContext "transactions"
      contextInfo := contextInfo ++ "\n\nUser's recent transactions:\n" ++ pyStr v
    if (← pyContains userContext "balance") then
      let v ← pyGetItem userContext "balance"
      contextInfo := contextInfo ++ "\n\nCurrent balance: ₹" ++ pyStr v
    if (← pyContains userContext "monthly_expenses") then
      let v ← pyGetItem userContext "monthly_expenses"
      contextInfo := contextInfo ++ "\n\nMonthly expenses: ₹" ++ pyStr v
    if (← pyContains userContext "monthly_income") then
      let v ← pyGetItem userContext "monthly_income"
      contextInfo := contextInfo ++ "\nMonthly income: ₹" ++ pyStr v
  return contextInfo

/-- The request body as seen by the handler: either `request.get_json()`
succeeds and yields a decoded JSON value, or it raises (malformed JSON or an
unsupported media type); the raised exception's `str` description depends on
the raw bytes and is carried as a parameter. -/
inductive ChatBody where
  | notJson : String → ChatBody
  | json : JsonValue → ChatBody

/-- The Generation Provider (`model.generate_content(...).text`): a function
from the assembled prompt to either generated text or a raised failure's
description. -/
def Provider := String → Except String String

/-- A JSON response body `{"success": false, "error": e}`. -/
def errorEnvelope (e : String) : JsonValue :=
  .obj [("success", .bool false), ("error", .str e)]

/-- A JSON response body `{"success": true, "response": text}`. -/
def successEnvelope (text : String) : JsonValue :=
  .obj [("success", .bool true), ("response", .str text)]

/-- Outcome of one `/chat` request: HTTP status, JSON response body, and the
prompt handed to the Generation Provider when the provider was invoked
(`none` when no provider call was made). -/
structure ChatResult where
  status : Nat
  respBody : JsonValue
  providerCalled : Option String

/-- The happy path of `chat` inside the `try` block, returning its
`(body, status)` response or the description of a raised exception.  The
`Bool` in the success value records whether the provider was invoked; the
error case separately records the prompt when the provider had already been
called. -/
def chatTry (body : ChatBody) (provider : Provider) :
    Except (String × Option String) (Nat × JsonValue × Option String) := do
  let data ← match body with
    | .notJson desc => .error (desc, none)
    | .json v => .ok v
  if !truthy data then
    return (400, errorEnvelope "Message is required", none)
  let present ← (pyContains data "message").mapError (·, none)
  if !present then
    return (400, errorEnvelope "Message is required", none)
  let userMessage ← (pyGetItem data "message").mapError (·, none)
  let userContext ← (pyDictGet data "context" (.obj [])).mapError (·, none)
  let contextInfo ← (buildContextInfo userContext).mapError (·, none)
  let fullPrompt := SYSTEM_PROMPT ++ contextInfo ++ "\n\nUser: " ++ pyStr userMessage
  match provider fullPrompt with
  | .error e => .error (e, some fullPrompt)
  | .ok text => return (200, successEnvelope text, some fullPrompt)

/-- The `/chat` handler: the `try` body above with the source's
`except Exception` boundary, which turns any raised failure into
`{"success": false, "error": str(e)}` with status 500. -/
def chat (body : ChatBody) (provider : Provider) : ChatResult :=
  match chatTry body provider with
  | .ok (status, respBody, called) => ⟨status, respBody, called⟩
  | .error (e, called) => ⟨500, errorEnvelope e, called⟩

/-- The `/health` handler: a constant response, no input, no failure
branch. -/
def health_check : Nat × JsonValue :=
  (200, .obj [("status", .str "OK"), ("message", .str "RampageAI Chatbot API is running")])

/-- The startup guard on the provider credential: `API_KEY`
is `os.getenv('GOOGLE_API_KEY')` (`none` when the variable is unset) and
`if not API_KEY: raise ValueError(...)` aborts startup on any falsy value. -/
def startupCheck (env : Option String) : Except String Unit :=
  let truthyKey := match env with
    | none => false
    | some s => s != ""
  if truthyKey then .ok ()
  else .error "GOOGLE_API_KEY not found in environment variables!"

/-- Written from the spec's description of prompt assembly (§4.2–3 of the
spec): one label line per recognized context key present, in the fixed order
transactions, balance, monthly expenses, monthly income; absent keys
contribute nothing.  To be compared with the handler's imperative
`buildContextInfo`. -/
def specContextLines (c : List (String × JsonValue)) : String :=
  (match objLookup c "transactions" with
    | some v => "\n\nUser's recent transactions:\n" ++ pyStr v
    | none => "")
  ++ (match objLookup c "balance" with
    | some v => "\n\nCurrent balance: ₹" ++ pyStr v
    | none => "")
  ++ (match objLookup c "monthly_expenses" with
    | some v => "\n\nMonthly expenses: ₹" ++ pyStr v
    | none => "")
  ++ (match objLookup c "monthly_income" with
    | some v => "\nMonthly income: ₹" ++ pyStr v
    | none => "")

/-- The recognized context keys. -/
def recognizedKey (k : String) : Bool :=
  k == "transactions" || k == "balance" || k == "monthly_expenses" || k == "monthly_income"

/-- A context mapping with every unrecognized key removed. -/
def recognizedOnly (c : List (String × JsonValue)) : List (String × JsonValue) :=
  c.filter fun kv => recognizedKey kv.1

/-- The string value of a top-level field of a JSON response body, when that
field is present and a string. -/
def strField (v : JsonValue) (key : String) : Option String :=
  match v with
  | .obj fields =>
    match objLookup fields key with
    | some (.str s) => some s
    | _ => none
  | _ => none

/-- The boolean value of a top-level field of a JSON response body, when that
field is present and a boolean. -/
def boolField (v : JsonValue) (key : String) : Option Bool :=
  match v with
  | .obj fields =>
    match objLookup fields key with
    | some (.bool b) => some b
    | _ => none
  | _ => none

/-- A provider that answers every prompt, for exercising concrete requests. -/
def okProvider : Provider := fun _ => .ok "generated text"

/-- A provider whose call raises a failure described by `"boom"`. -/
def boomProvider : Provider := fun _ => .error "boom"

/-- A provider whose call raises a failure with an empty description, as
`raise Exception("")` would. -/
def silentFailProvider : Provider := fun _ => .error ""

/-! ## Structural lemmas about prompt assembly -/

/-- On a decoded JSON object the imperative `context_info` accumulation
produces exactly the spec's ordered label lines, and never raises. -/
theorem buildContextInfo_obj (c : List (String × JsonValue)) :
    buildContextInfo (.obj c) = .ok (specContextLines c) := by
  cases c with
  | nil => rfl
  | cons hd tl =>
    simp only [buildContextInfo, pyContains, pyGetItem, truthy, specContextLines,
      List.isEmpty_cons, Bool.not_false, if_true]
    cases h1 : objLookup (hd :: tl) "transactions" <;>
      cases h2 : objLookup (hd :: tl) "balance" <;>
        cases h3 : objLookup (hd :: tl) "monthly_expenses" <;>
          cases h4 : objLookup (hd :: tl) "monthly_income" <;>
            simp [h1, h2, h3, h4, bind, Except.bind, pure, Except.pure,
              String.empty_append, String.append_assoc]

/-- A falsy `user_context` (whatever its type) contributes no context lines
and raises nothing. -/
theorem buildContextInfo_falsy (v : JsonValue) (h : truthy v = false) :
    buildContextInfo v = .ok "" := by
  simp [buildContextInfo, h, pure, Except.pure, bind, Except.bind]

/-- Master lemma: on a body that decodes to an object with a `message` key,
whose `context` (defaulted to `{}`) is an object `c`, the handler assembles
`SYSTEM_PROMPT ++ specContextLines c ++ "\n\nUser: " ++ str(message)`, hands
it to the provider, and shapes the provider's answer or failure. -/
theorem chat_obj_eq (fields : List (String × JsonValue)) (m : JsonValue)
    (c : List (String × JsonValue)) (p : Provider)
    (hm : objLookup fields "message" = some m)
    (hc : (objLookup fields "context").getD (.obj []) = .obj c) :
    chat (.json (.obj fields)) p =
      match p (SYSTEM_PROMPT ++ specContextLines c ++ "\n\nUser: " ++ pyStr m) with
      | .ok text => ⟨200, successEnvelope text,
          some (SYSTEM_PROMPT ++ specContextLines c ++ "\n\nUser: " ++ pyStr m)⟩
      | .error e => ⟨500, errorEnvelope e,
          some (SYSTEM_PROMPT ++ specContextLines c ++ "\n\nUser: " ++ pyStr m)⟩ := by
  cases fields with
  | nil => simp [objLookup] at hm
  | cons hd tl =>
    simp only [chat, chatTry, pyContains, pyGetItem, pyDictGet, truthy,
      List.isEmpty_cons, Bool.not_false, Bool.not_true, if_true, hm, hc,
      buildContextInfo_obj, Option.isSome_some, bind, Except.bind,
      Except.mapError, pure, Except.pure, String.append_assoc]
    cases hp : p (SYSTEM_PROMPT ++ (specContextLines c ++ ("\n\nUser: " ++ pyStr m))) <;>
      simp [hp, String.append_assoc]

/-- Generalization of `chat_obj_eq` to any defaulted context value whose
context block is known: the handler assembles preamble, context block and
user line, and shapes the provider's outcome. -/
theorem chat_eq_of_info (fields : List (String × JsonValue)) (m ctxv : JsonValue)
    (info : String) (p : Provider)
    (hm : objLookup fields "message" = some m)
    (hc : (objLookup fields "context").getD (.obj []) = ctxv)
    (hinfo : buildContextInfo ctxv = .ok info) :
    chat (.json (.obj fields)) p =
      match p (SYSTEM_PROMPT ++ info ++ "\n\nUser: " ++ pyStr m) with
      | .ok text => ⟨200, successEnvelope text,
          some (SYSTEM_PROMPT ++ info ++ "\n\nUser: " ++ pyStr m)⟩
      | .error e => ⟨500, errorEnvelope e,
          some (SYSTEM_PROMPT ++ info ++ "\n\nUser: " ++ pyStr m)⟩ := by
  cases fields with
  | nil => simp [objLookup] at hm
  | cons hd tl =>
    simp only [chat, chatTry, pyContains, pyGetItem, pyDictGet, truthy,
      List.isEmpty_cons, Bool.not_false, Bool.not_true, if_true, hm, hc,
      hinfo, Option.isSome_some, bind, Except.bind,
      Except.mapError, pure, Except.pure, String.append_assoc]
    cases hp : p (SYSTEM_PROMPT ++ (info ++ ("\n\nUser: " ++ pyStr m))) <;>
      simp [hp, String.append_assoc]

/-- Filtering a context mapping to its recognized keys does not change the
lookup of any recognized key. -/
theorem objLookup_recognizedOnly (c : List (String × JsonValue)) (k : String)
    (hk : recognizedKey k = true) :
    objLookup (recognizedOnly c) k = objLookup c k := by
  induction c with
  | nil => rfl
  | cons hd tl ih =>
    by_cases hmatch : hd.1 = k
    · have : recognizedKey hd.1 = true := by rw [hmatch]; exact hk
      simp [recognizedOnly, List.filter_cons, this, objLookup, hmatch, hk]
    · by_cases hrec : recognizedKey hd.1 = true
      · simp [recognizedOnly, List.filter_cons, hrec, objLookup, hmatch]
        exact ih
      · simp only [Bool.not_eq_true] at hrec
        simp [recognizedOnly, List.filter_cons, hrec, objLookup, hmatch]
        rw [← ih]; rfl

/-- The context block only depends on the recognized keys of the mapping. -/
theorem specContextLines_recognizedOnly (c : List (String × JsonValue)) :
    specContextLines (recognizedOnly c) = specContextLines c := by
  unfold specContextLines
  rw [objLookup_recognizedOnly c "transactions" (by decide),
    objLookup_recognizedOnly c "balance" (by decide),
    objLookup_recognizedOnly c "monthly_expenses" (by decide),
    objLookup_recognizedOnly c "monthly_income" (by decide)]

/-! ## Claims -/

/-- C1: for every `/chat` request whose body parses as an object containing
key `message` (a string) and no `context` field, the prompt handed to the
Generation Provider is exactly `SYSTEM_PROMPT ++ "\n\nUser: " ++ message`,
with no other characters. -/
theorem C1_prompt_without_context (fields : List (String × JsonValue)) (m : String)
    (p : Provider)
    (hm : objLookup fields "message" = some (.str m))
    (hc : objLookup fields "context" = none) :
    (chat (.json (.obj fields)) p).providerCalled =
      some (SYSTEM_PROMPT ++ "\n\nUser: " ++ m) := by
  have h := chat_obj_eq fields (.str m) [] p hm (by rw [hc]; rfl)
  rw [h]
  have hs : SYSTEM_PROMPT ++ specContextLines [] ++ "\n\nUser: " ++ pyStr (.str m) =
      SYSTEM_PROMPT ++ "\n\nUser: " ++ m := by
    show SYSTEM_PROMPT ++ "" ++ "\n\nUser: " ++ m = SYSTEM_PROMPT ++ "\n\nUser: " ++ m
    rw [String.append_empty]
  rw [hs]
  cases hp : p (SYSTEM_PROMPT ++ "\n\nUser: " ++ m) <;> simp [hp]

/-- Witness for C1 at the concrete request `{"message": "hello"}`. -/
theorem C1_witness :
    (chat (.json (.obj [("message", .str "hello")])) okProvider).providerCalled =
      some (SYSTEM_PROMPT ++ "\n\nUser: " ++ "hello") :=
  C1_prompt_without_context [("message", .str "hello")] "hello" okProvider rfl rfl

/-- C5: for every `/chat` request carrying a `context` mapping, the
assembled prompt is the preamble, then one label line per recognized key
present in the mapping in the fixed order transactions, balance,
monthly expenses, monthly income (absent keys contributing nothing, as
`specContextLines` states), then the `"User: "` line. -/
theorem C5_context_lines_fixed_order (fields : List (String × JsonValue))
    (m : JsonValue) (c : List (String × JsonValue)) (p : Provider)
    (hm : objLookup fields "message" = some m)
    (hc : objLookup fields "context" = some (.obj c)) :
    (chat (.json (.obj fields)) p).providerCalled =
      some (SYSTEM_PROMPT ++ specContextLines c ++ "\n\nUser: " ++ pyStr m) := by
  rw [chat_obj_eq fields m c p hm (by rw [hc]; rfl)]
  cases hp : p (SYSTEM_PROMPT ++ specContextLines c ++ "\n\nUser: " ++ pyStr m) <;> simp [hp]

/-- Witness for C5 at a request whose context has `balance` and
`monthly_income` only. -/
theorem C5_witness :
    (chat (.json (.obj [("message", .str "hi"),
        ("context", .obj [("monthly_income", .str "90000"), ("balance", .num 5000)])]))
      okProvider).providerCalled =
      some (SYSTEM_PROMPT ++
        specContextLines [("monthly_income", .str "90000"), ("balance", .num 5000)] ++
        "\n\nUser: " ++ pyStr (.str "hi")) :=
  C5_context_lines_fixed_order [("message", .str "hi"),
    ("context", .obj [("monthly_income", .str "90000"), ("balance", .num 5000)])]
    (.str "hi") [("monthly_income", .str "90000"), ("balance", .num 5000)]
    okProvider rfl rfl

/-- C7: `GET /health` returns status 200 with body
`{status: "OK", message: "RampageAI Chatbot API is running"}`; the handler
takes no input and has no failure branch. -/
theorem C7_health_check :
    health_check =
      (200, .obj [("status", .str "OK"),
        ("message", .str "RampageAI Chatbot API is running")]) := rfl

/-- C9: a `context` field that is present but falsy (`{}`, `null`, `0`,
`""`, ...) yields exactly the same handler outcome as omitting `context`
altogether: no context line is emitted. -/
theorem C9_falsy_context_like_absent (m v : JsonValue) (p : Provider)
    (hv : truthy v = false) :
    chat (.json (.obj [("message", m), ("context", v)])) p =
      chat (.json (.obj [("message", m)])) p := by
  rw [chat_eq_of_info [("message", m), ("context", v)] m v "" p
      (by simp [objLookup]) (by simp [objLookup]) (buildContextInfo_falsy v hv),
    chat_eq_of_info [("message", m)] m (.obj []) "" p
      (by simp [objLookup]) (by simp [objLookup]) (buildContextInfo_falsy (.obj []) rfl)]

/-- Witness for C9 at `context = null`. -/
theorem C9_witness :
    chat (.json (.obj [("message", .str "hi"), ("context", .null)])) okProvider =
      chat (.json (.obj [("message", .str "hi")])) okProvider :=
  C9_falsy_context_like_absent (.str "hi") .null okProvider rfl

/-- C10: startup rejects every falsy credential: both an unset
`GOOGLE_API_KEY` and one set to the empty string abort startup with the
`ValueError`, so the service never serves traffic with an empty
credential. -/
theorem C10_startup_rejects_falsy_key (env : Option String)
    (h : env = none ∨ env = some "") :
    startupCheck env = .error "GOOGLE_API_KEY not found in environment variables!" := by
  rcases h with rfl | rfl <;> rfl

/-- Witness for C10 at the empty-string credential. -/
theorem C10_witness :
    startupCheck (some "") = .error "GOOGLE_API_KEY not found in environment variables!" :=
  C10_startup_rejects_falsy_key (some "") (Or.inr rfl)

/-- C2 (amended): when the body parses as valid JSON that either is falsy or
is a value on which Python's membership test `'message' in body` evaluates
without raising to false (an object without key `message`, an array with no
element equal to `"message"`, a string not containing `"message"` as a
substring), the handler responds 400 with
`{success: false, error: "Message is required"}` and never calls the
provider — exactly the guard `not data or 'message' not in data` of the
source. -/
theorem C2_validation_returns_400 (v : JsonValue) (p : Provider)
    (h : truthy v = false ∨ pyContains v "message" = .ok false) :
    chat (.json v) p = ⟨400, errorEnvelope "Message is required", none⟩ := by
  cases ht : truthy v with
  | false => simp [chat, chatTry, ht, bind, Except.bind, pure, Except.pure]
  | true =>
    rcases h with hf | hc
    · rw [hf] at ht; cases ht
    · simp [chat, chatTry, ht, hc, bind, Except.bind, pure, Except.pure, Except.mapError]

/-- Witness for C2 at the body `{}`. -/
theorem C2_witness :
    chat (.json (.obj [])) okProvider = ⟨400, errorEnvelope "Message is required", none⟩ :=
  C2_validation_returns_400 (.obj []) okProvider (Or.inl rfl)

/-- Counterexample to C2 as stated, at three of the claim's inputs: a body
that is not valid JSON makes `request.get_json()` raise; the truthy
non-object body `5` makes the membership test `'message' in 5` raise
`TypeError`; and the non-object body `["message"]` passes the membership
test but makes the subscript `data['message']` raise `TypeError`.  Each
raise is turned by the handler's `except` block into a 500 with the
exception's description — never the 400 `"Message is required"` envelope
the claim asserts for those bodies. -/
theorem C2_counterexample :
    ((chat (.notJson "400 Bad Request: Failed to decode JSON object: Expecting value: line 1 column 1 (char 0)")
        okProvider).status = 500 ∧
      (chat (.notJson "400 Bad Request: Failed to decode JSON object: Expecting value: line 1 column 1 (char 0)")
        okProvider).status ≠ 400 ∧
      strField (chat (.notJson "400 Bad Request: Failed to decode JSON object: Expecting value: line 1 column 1 (char 0)")
        okProvider).respBody "error" ≠ some "Message is required") ∧
      ((chat (.json (.num 5)) okProvider).status = 500 ∧
        (chat (.json (.num 5)) okProvider).status ≠ 400) ∧
      ((chat (.json (.arr [.str "message"])) okProvider).status = 500 ∧
        (chat (.json (.arr [.str "message"])) okProvider).status ≠ 400) := by
  refine ⟨⟨rfl, by decide, ?_⟩, ⟨rfl, by decide⟩, ⟨rfl, by decide⟩⟩
  intro h
  simp [chat, chatTry, strField, errorEnvelope, objLookup, bind, Except.bind] at h

/-- C3 (amended): for every `/chat` request, if the provider call or any
processing step inside the `try` block raises a failure with description
`e`, the handler responds 500 with `success: false` and an `error` string
equal to `e` (hence non-empty whenever the description is), whether or not
the provider had been invoked by then; the failure never escapes the
handler, which stays a total function. -/
theorem C3_any_failure_to_500 (body : ChatBody) (p : Provider) (e : String)
    (called : Option String)
    (h : chatTry body p = .error (e, called)) :
    chat body p = ⟨500, errorEnvelope e, called⟩ ∧
      (chat body p).status = 500 ∧
      boolField (chat body p).respBody "success" = some false ∧
      strField (chat body p).respBody "error" = some e := by
  refine ⟨by simp [chat, h], ?_, ?_, ?_⟩ <;>
    simp [chat, h, boolField, strField, errorEnvelope, objLookup]

/-- Witness for C3 at the validated request
`{"message": "hi", "context": {"balance": 5}}` and a provider whose call
fails with description `"boom"`. -/
theorem C3_witness :
    (chat (.json (.obj [("message", .str "hi"),
          ("context", .obj [("balance", .num 5)])])) boomProvider =
        ⟨500, errorEnvelope "boom",
          some (SYSTEM_PROMPT ++ "\n\nCurrent balance: ₹5" ++ "\n\nUser: " ++ "hi")⟩) ∧
      (chat (.json (.obj [("message", .str "hi"),
          ("context", .obj [("balance", .num 5)])])) boomProvider).status = 500 ∧
      boolField (chat (.json (.obj [("message", .str "hi"),
          ("context", .obj [("balance", .num 5)])])) boomProvider).respBody "success" =
        some false ∧
      strField (chat (.json (.obj [("message", .str "hi"),
          ("context", .obj [("balance", .num 5)])])) boomProvider).respBody "error" =
        some "boom" :=
  C3_any_failure_to_500
    (.json (.obj [("message", .str "hi"), ("context", .obj [("balance", .num 5)])]))
    boomProvider "boom"
    (some (SYSTEM_PROMPT ++ "\n\nCurrent balance: ₹5" ++ "\n\nUser: " ++ "hi")) rfl

/-- Counterexample to C3 as stated: a provider failure whose textual
description is empty (as `raise Exception("")` produces) yields a 500 whose
`error` field is the empty string — not the non-empty error string the claim
asserts. -/
theorem C3_counterexample :
    (chat (.json (.obj [("message", .str "hi")])) silentFailProvider).status = 500 ∧
      strField (chat (.json (.obj [("message", .str "hi")])) silentFailProvider).respBody
        "error" = some "" :=
  ⟨rfl, rfl⟩

/-- C4: whenever the request's `context` mapping has a `balance` value `v`,
the assembled prompt contains `"Current balance: ₹" ++ str(v)` at a position
before the `"\n\nUser: "` marker that introduces the user message. -/
theorem C4_balance_line_before_user_marker (fields : List (String × JsonValue))
    (m : JsonValue) (c : List (String × JsonValue)) (v : JsonValue) (p : Provider)
    (hm : objLookup fields "message" = some m)
    (hc : objLookup fields "context" = some (.obj c))
    (hb : objLookup c "balance" = some v) :
    ∃ pre post, (chat (.json (.obj fields)) p).providerCalled =
      some (pre ++ ("Current balance: ₹" ++ pyStr v) ++ post ++ ("\n\nUser: " ++ pyStr m)) := by
  have hsplit : SYSTEM_PROMPT ++ specContextLines c ++ "\n\nUser: " ++ pyStr m =
      (SYSTEM_PROMPT ++
        (match objLookup c "transactions" with
          | some t => "\n\nUser's recent transactions:\n" ++ pyStr t
          | none => "") ++ "\n\n") ++
      ("Current balance: ₹" ++ pyStr v) ++
      ((match objLookup c "monthly_expenses" with
        | some e => "\n\nMonthly expenses: ₹" ++ pyStr e
        | none => "")
      ++ (match objLookup c "monthly_income" with
        | some i => "\nMonthly income: ₹" ++ pyStr i
        | none => "")) ++
      ("\n\nUser: " ++ pyStr m) := by
    simp only [specContextLines, hb]
    rw [show ("\n\nCurrent balance: ₹" : String) = "\n\n" ++ "Current balance: ₹" from rfl]
    simp only [String.append_assoc]
  rw [chat_obj_eq fields m c p hm (by rw [hc]; rfl)]
  refine ⟨SYSTEM_PROMPT ++
      (match objLookup c "transactions" with
        | some t => "\n\nUser's recent transactions:\n" ++ pyStr t
        | none => "") ++ "\n\n",
    (match objLookup c "monthly_expenses" with
      | some e => "\n\nMonthly expenses: ₹" ++ pyStr e
      | none => "")
    ++ (match objLookup c "monthly_income" with
      | some i => "\nMonthly income: ₹" ++ pyStr i
      | none => ""), ?_⟩
  cases hp : p (SYSTEM_PROMPT ++ specContextLines c ++ "\n\nUser: " ++ pyStr m) <;>
    · simp only [hp]
      rw [hsplit]

/-- Witness for C4 at a context carrying `balance` and `monthly_income`. -/
theorem C4_witness :
    ∃ pre post,
      (chat (.json (.obj [("message", .str "hi"),
          ("context", .obj [("balance", .num 5000), ("monthly_income", .num 90000)])]))
        okProvider).providerCalled =
        some (pre ++ ("Current balance: ₹" ++ pyStr (.num 5000)) ++ post ++
          ("\n\nUser: " ++ pyStr (.str "hi"))) :=
  C4_balance_line_before_user_marker
    [("message", .str "hi"),
      ("context", .obj [("balance", .num 5000), ("monthly_income", .num 90000)])]
    (.str "hi") [("balance", .num 5000), ("monthly_income", .num 90000)] (.num 5000)
    okProvider rfl rfl rfl

/-- C6: unrecognized context keys never reach the prompt: the handler's
outcome on a request is identical to its outcome on the same request with
the context filtered to the recognized keys. -/
theorem C6_unrecognized_keys_ignored (m : JsonValue) (c : List (String × JsonValue))
    (p : Provider) :
    chat (.json (.obj [("message", m), ("context", .obj c)])) p =
      chat (.json (.obj [("message", m), ("context", .obj (recognizedOnly c))])) p := by
  rw [chat_obj_eq [("message", m), ("context", .obj c)] m c p
      (by simp [objLookup]) (by simp [objLookup]),
    chat_obj_eq [("message", m), ("context", .obj (recognizedOnly c))] m (recognizedOnly c) p
      (by simp [objLookup]) (by simp [objLookup]),
    specContextLines_recognizedOnly]

/-- C8: the separators in front of the context label lines are asymmetric:
the transactions, balance and monthly-expenses lines are each introduced by
two newlines, while the monthly-income line is introduced by a single
newline. -/
theorem C8_newline_separator_asymmetry (t b e i m : JsonValue) (p : Provider) :
    (chat (.json (.obj [("message", m), ("context", .obj
        [("transactions", t), ("balance", b),
          ("monthly_expenses", e), ("monthly_income", i)])])) p).providerCalled =
      some (SYSTEM_PROMPT ++
        ("\n\n" ++ "User's recent transactions:\n" ++ pyStr t) ++
        ("\n\n" ++ "Current balance: ₹" ++ pyStr b) ++
        ("\n\n" ++ "Monthly expenses: ₹" ++ pyStr e) ++
        ("\n" ++ "Monthly income: ₹" ++ pyStr i) ++
        ("\n\n" ++ "User: " ++ pyStr m)) := by
  rw [chat_obj_eq [("message", m), ("context", .obj
      [("transactions", t), ("balance", b),
        ("monthly_expenses", e), ("monthly_income", i)])] m
      [("transactions", t), ("balance", b),
        ("monthly_expenses", e), ("monthly_income", i)] p
      (by simp [objLookup]) (by simp [objLookup])]
  cases hp : p (SYSTEM_PROMPT ++
      specContextLines [("transactions", t), ("balance", b),
        ("monthly_expenses", e), ("monthly_income", i)] ++ "\n\nUser: " ++ pyStr m) <;>
    simp [hp, specContextLines, objLookup, String.append_assoc]
